import Mathlib

/-!
Verification of the frame loop and camera-transition engine of the
`web-splat` viewer (`src/lib.rs`), shallow-embedded.

Conventions of the embedding:

* `Duration` values are natural numbers of nanoseconds (Rust's `Duration`
  is exact at nanosecond granularity); `Duration::checked_sub` becomes
  `checkedSub`.
* `f32` arithmetic on elapsed fractions, easing and interpolation is
  idealised over `ℚ` (the claims are about which formula is computed, not
  about rounding).
* GPU handles (`device`, `queue`, `surface`, `renderer`, `window`) carry
  no modelled state; external inputs that the loop reads from them (the
  render result, the window's inner size, the random index, `dt`) are
  oracle parameters of the corresponding event.
* The modules `camera`, `controller`, `pc`, `scene` and `utils` of the
  repository are not under `src/`; the definitions taken from them are
  marked `Modelled from the spec:` and follow the spec's words.  The
  navigation controller's behaviour is entirely unspecified, so its
  operations are passed as parameters (`Collab`) rather than fixed.
-/

namespace WebSplat

/-- Modelled from the spec: the `camera` module is not under `src/`.
`PerspectiveProjection { fovx, fovy: angle; znear, zfar: distance }`,
angles and distances idealised over `ℚ`. -/
structure PerspectiveProjection where
  fovx : ℚ
  fovy : ℚ
  znear : ℚ
  zfar : ℚ
deriving DecidableEq

/-- Modelled from the spec: `resize` recomputes the aspect-dependent
field-of-view component from the new viewport dimensions while holding the
other fixed (the derived component is `fovy`, as in the session
constructor where `fovy = fovx * aspect` with `aspect = width/height`). -/
def PerspectiveProjection.resize (p : PerspectiveProjection) (width height : ℕ) : PerspectiveProjection :=
  { p with fovy := p.fovx * (width : ℚ) / (height : ℚ) }

/-- Modelled from the spec: the `camera` module is not under `src/`.
A camera is a pose (position, orientation) and a perspective projection.
The orientation quaternion is kept as four rational components. -/
structure PerspectiveCamera where
  posX : ℚ
  posY : ℚ
  posZ : ℚ
  rotW : ℚ
  rotX : ℚ
  rotY : ℚ
  rotZ : ℚ
  projection : PerspectiveProjection
deriving DecidableEq

/-- Linear interpolation of one rational component. -/
def lerpQ (a b t : ℚ) : ℚ := a + (b - a) * t

/-- Modelled from the spec: `interpolate(start, target, t)` — position is
linearly interpolated and projection fields are linearly interpolated.
The spec's spherical orientation blend is not expressible over `ℚ` and is
modelled componentwise-linearly; no claim depends on the orientation blend
formula, only on which arguments `lerp` receives. -/
def PerspectiveCamera.lerp (a b : PerspectiveCamera) (t : ℚ) : PerspectiveCamera where
  posX := lerpQ a.posX b.posX t
  posY := lerpQ a.posY b.posY t
  posZ := lerpQ a.posZ b.posZ t
  rotW := lerpQ a.rotW b.rotW t
  rotX := lerpQ a.rotX b.rotX t
  rotY := lerpQ a.rotY b.rotY t
  rotZ := lerpQ a.rotZ b.rotZ t
  projection :=
    { fovx := lerpQ a.projection.fovx b.projection.fovx t
      fovy := lerpQ a.projection.fovy b.projection.fovy t
      znear := lerpQ a.projection.znear b.projection.znear t
      zfar := lerpQ a.projection.zfar b.projection.zfar t }

/-- The camera with its projection resized to the given viewport, as in
`self.camera.projection.resize(w, h)`. -/
def withResizedProjection (c : PerspectiveCamera) (width height : ℕ) : PerspectiveCamera :=
  { c with projection := c.projection.resize width height }

/-- Modelled from the spec: `utils::smoothstep` is not under `src/`;
the spec gives the cubic easing `3x^2 - 2x^3`. -/
def smoothstep (x : ℚ) : ℚ := 3 * x ^ 2 - 2 * x ^ 3

/-- Models `Duration::as_secs_f32`, idealised: nanoseconds to rational seconds. -/
def asSecs (d : ℕ) : ℚ := (d : ℚ) / 1000000000

/-- Models `Duration::checked_sub`: `some (a - b)` when `b ≤ a`, otherwise `none`. -/
def checkedSub (a b : ℕ) : Option ℕ :=
  if b ≤ a then some (a - b) else none

/-- Modelled from the spec: the `pc` module is not under `src/`.  The
dataset's own order data is irrelevant to the claims; the model records
how many times `sort` (the dataset reorder) has been invoked on this
point cloud and with which camera it was last invoked. -/
structure PointCloud where
  sortCount : ℕ
  lastSortCamera : Option PerspectiveCamera
deriving DecidableEq

/-- Models `pc.sort(queue, camera)`: one reorder invocation with the given camera. -/
def PointCloud.sort (p : PointCloud) (camera : PerspectiveCamera) : PointCloud :=
  { sortCount := p.sortCount + 1, lastSortCamera := some camera }

/-- Modelled from the spec: the `scene` module is not under `src/`.  A
scene is an ordered collection of cameras exposing lookup by index and a
count. -/
structure Scene where
  cameras : List PerspectiveCamera
deriving DecidableEq

/-- Models `Scene::num_cameras`. -/
def Scene.numCameras (sc : Scene) : ℕ := sc.cameras.length

/-- A fixed default camera (used only to totalise the modelled
out-of-range scene lookup, which the spec leaves collaborator-defined). -/
def defaultCamera : PerspectiveCamera :=
  { posX := 0, posY := 0, posZ := 0, rotW := 1, rotX := 0, rotY := 0, rotZ := 0
    projection := { fovx := 45, fovy := 45, znear := 1, zfar := 100 } }

/-- Modelled from the spec: `Scene::camera(index)`; index out of range is
collaborator-defined and is totalised with `defaultCamera`. -/
def Scene.camera (sc : Scene) (i : ℕ) : PerspectiveCamera :=
  sc.cameras.getD i defaultCamera

/-- Modelled from the spec: the `controller` module is not under `src/`.
Its internal accumulator state is abstract (`code`); the two mouse-button
fields are public and written directly by the event loop. -/
structure CameraController where
  code : ℕ
  leftMousePressed : Bool
  rightMousePressed : Bool
deriving DecidableEq

/-- Keys distinguished by the event loop's keyboard dispatch: `G`
(re-sort), `R` (random camera), the numeric keys (carrying the number
`utils::key_to_num` assigns to them), and all others. -/
inductive Key where
  | g : Key
  | r : Key
  | num : ℕ → Key
  | other : ℕ → Key
deriving DecidableEq

/-- Modelled from the spec: `utils::key_to_num` is not under `src/`; it
maps a numeric key to its number and any other key to `none` (the model's
`Key.num` constructor carries that number). -/
def key_to_num : Key → Option ℕ
  | Key.num n => some n
  | _ => none

/-- Behaviour of the navigation controller, passed as parameters because
the spec constrains only its invocation points, never its effect.
`controllerUpdate` models `controller.update_camera(&mut camera, dt)`
(mutating both the controller and the camera). -/
structure Collab where
  controllerUpdate : CameraController → PerspectiveCamera → ℕ → CameraController × PerspectiveCamera
  processKeyboard : CameraController → Key → Bool → CameraController
  processScroll : CameraController → ℚ → CameraController
  processMouse : CameraController → ℚ → ℚ → CameraController

/-- The modelled fields of `wgpu::SurfaceConfiguration` (`width`,
`height`; the format/present-mode fields are fixed at session start and
never consulted by the claims). -/
structure SurfaceConfiguration where
  width : ℕ
  height : ℕ
deriving DecidableEq

/-- The session aggregate `WindowContext` (`src/lib.rs:28`): surface
configuration, DPI scale factor, optional point cloud, active camera, the
optional transition `next_camera : ((time_left, duration), (start, target))`,
controller state and optional scene.  GPU handles carry no state. -/
structure WindowContext where
  config : SurfaceConfiguration
  scaleFactor : ℚ
  pc : Option PointCloud
  camera : PerspectiveCamera
  nextCamera : Option ((ℕ × ℕ) × (PerspectiveCamera × PerspectiveCamera))
  controller : CameraController
  scene : Option Scene
deriving DecidableEq

/-- Models `WindowContext::set_point_cloud` (`src/lib.rs:130`): sort the incoming
point cloud against the current camera, then attach it. -/
def WindowContext.set_point_cloud (s : WindowContext) (p : PointCloud) : WindowContext :=
  { s with pc := some (p.sort s.camera) }

/-- Models `WindowContext::resize` (`src/lib.rs:136`): when both dimensions are
positive, store them in the surface configuration, resize the active
camera's projection and reconfigure the surface; a provided positive
scale factor updates the DPI scale field. -/
def WindowContext.resize (s : WindowContext) (newWidth newHeight : ℕ) (scaleFactor : Option ℚ) : WindowContext :=
  let s1 :=
    if 0 < newWidth ∧ 0 < newHeight then
      { s with
          config := { s.config with width := newWidth, height := newHeight }
          camera := withResizedProjection s.camera newWidth newHeight }
    else s
  match scaleFactor with
  | some f => if 0 < f then { s1 with scaleFactor := f } else s1
  | none => s1

/-- Models `WindowContext::update` (`src/lib.rs:153`): with a transition in
flight, `time_left.checked_sub(dt)`; on `some new_left` store `new_left`
and set the camera to `start.lerp(target, smoothstep(1 - new_left/duration))`;
on `none` (i.e. `dt > time_left`) set the camera to the stored target,
resize its projection to the surface dimensions, sort the point cloud and
drop the transition.  With no transition, forward to the controller. -/
def WindowContext.update (cb : Collab) (s : WindowContext) (dt : ℕ) : WindowContext :=
  match s.nextCamera with
  | some ((timeLeft, duration), (startCamera, targetCamera)) =>
    match checkedSub timeLeft dt with
    | some newLeft =>
      let elapsed : ℚ := 1 - asSecs newLeft / asSecs duration
      let amount : ℚ := smoothstep elapsed
      { s with
          nextCamera := some ((newLeft, duration), (startCamera, targetCamera))
          camera := startCamera.lerp targetCamera amount }
    | none =>
      let cam := withResizedProjection targetCamera s.config.width s.config.height
      { s with
          camera := cam
          pc := s.pc.map (fun p => p.sort cam)
          nextCamera := none }
  | none =>
    let cu := cb.controllerUpdate s.controller s.camera dt
    { s with controller := cu.1, camera := cu.2 }

/-- Models `WindowContext::update_camera` (`src/lib.rs:238`): replace the active
camera, resize its projection to the surface dimensions, sort the point
cloud against it. -/
def WindowContext.update_camera (s : WindowContext) (camera : PerspectiveCamera) : WindowContext :=
  let cam := withResizedProjection camera s.config.width s.config.height
  { s with camera := cam, pc := s.pc.map (fun p => p.sort cam) }

/-- Models `WindowContext::set_camera` (`src/lib.rs:230`): zero animation
duration applies immediately via `update_camera`; otherwise store a fresh
transition `((duration, duration), (current camera, requested camera))`. -/
def WindowContext.set_camera (s : WindowContext) (camera : PerspectiveCamera) (animationDuration : ℕ) : WindowContext :=
  if animationDuration = 0 then
    s.update_camera camera
  else
    { s with nextCamera := some ((animationDuration, animationDuration), (s.camera, camera)) }

/-- Models `Duration::from_millis(200)` in nanoseconds. -/
def ms200 : ℕ := 200000000

/-- The scene-camera index the keyboard dispatch passes to
`Scene::camera` (`src/lib.rs:307-316`): a numeric key passes its number
directly; the `R` key passes `random % num_cameras`; other keys request
no scene camera. -/
def sceneIndexForKey (key : Key) (rnd numCameras : ℕ) : Option ℕ :=
  match key_to_num key with
  | some n => some n
  | none => if key = Key.r then some (rnd % numCameras) else none

/-- The keyboard arm of the event loop (`src/lib.rs:299-323`): on key
release, `G` sorts the point cloud against the current camera, a numeric
or `R` key (with a scene attached) starts a 200 ms transition to the
selected scene camera; in every case the key is then forwarded to the
controller with its pressed state. -/
def handleKeyboard (cb : Collab) (s : WindowContext) (key : Key) (pressed : Bool) (rnd : ℕ) : WindowContext :=
  let s1 :=
    if pressed then s
    else if key = Key.g then
      { s with pc := s.pc.map (fun p => p.sort s.camera) }
    else
      match s.scene with
      | some sc =>
        match sceneIndexForKey key rnd sc.numCameras with
        | some i => s.set_camera (sc.camera i) ms200
        | none => s
      | none => s
  { s1 with controller := cb.processKeyboard s1.controller key pressed }

/-- Outcome of `WindowContext::render` as seen by the event loop's triage
(`src/lib.rs:354-362`).  `lost` carries the window's inner size at the
moment of recovery (the oracle for `state.window.inner_size()`). -/
inductive RenderResult where
  | ok : RenderResult
  | lost : ℕ → ℕ → RenderResult
  | outOfMemory : RenderResult
  | timeout : RenderResult
  | outdated : RenderResult
deriving DecidableEq

/-- The events dispatched by `open_window`'s event loop
(`src/lib.rs:283-370`), with the external inputs each handler reads
(random index, frame `dt`, render outcome) as oracle parameters. -/
inductive WinEvent where
  | resized : ℕ → ℕ → WinEvent
  | scaleFactorChanged : ℕ → ℕ → ℚ → WinEvent
  | closeRequested : WinEvent
  | keyboardInput : Key → Bool → ℕ → WinEvent
  | mouseWheel : ℚ → WinEvent
  | mouseInput : Bool → Bool → WinEvent
  | mouseMotion : ℚ → ℚ → WinEvent
  | redrawRequested : ℕ → RenderResult → WinEvent
  | mainEventsCleared : WinEvent
deriving DecidableEq

/-- One iteration of `open_window`'s event loop (`src/lib.rs:283-370`).
Returns the new session state and whether `ControlFlow::Exit` was set.
`mouseInput`'s first flag selects the left (`true`) or right (`false`)
button; `redrawRequested` runs `update dt` and then triages the render
outcome: `Lost` reconfigures via `resize(window.inner_size(), None)`,
`OutOfMemory` exits, all other errors are only logged. -/
def step (cb : Collab) (s : WindowContext) (e : WinEvent) : WindowContext × Bool :=
  match e with
  | WinEvent.resized w h => (s.resize w h none, false)
  | WinEvent.scaleFactorChanged w h sf => (s.resize w h (some sf), false)
  | WinEvent.closeRequested => (s, true)
  | WinEvent.keyboardInput key pressed rnd => (handleKeyboard cb s key pressed rnd, false)
  | WinEvent.mouseWheel dy => ({ s with controller := cb.processScroll s.controller dy }, false)
  | WinEvent.mouseInput left pressed =>
    if left then
      ({ s with controller := { s.controller with leftMousePressed := pressed } }, false)
    else
      ({ s with controller := { s.controller with rightMousePressed := pressed } }, false)
  | WinEvent.mouseMotion dx dy => ({ s with controller := cb.processMouse s.controller dx dy }, false)
  | WinEvent.redrawRequested dt res =>
    let s1 := WindowContext.update cb s dt
    match res with
    | RenderResult.ok => (s1, false)
    | RenderResult.lost ww wh => (s1.resize ww wh none, false)
    | RenderResult.outOfMemory => (s1, true)
    | RenderResult.timeout => (s1, false)
    | RenderResult.outdated => (s1, false)
  | WinEvent.mainEventsCleared => (s, false)

/-- Number of reorder invocations recorded on the session's point cloud
(`0` when none is attached). -/
def sortCountOf (s : WindowContext) : ℕ :=
  match s.pc with
  | some p => p.sortCount
  | none => 0

/-- The events on which the dataset reorder fires, per the code: the
`G` key released, or a redraw whose `dt` strictly exceeds the in-flight
transition's `time_left` — in both cases only with a point cloud
attached. -/
def settleFires (s : WindowContext) (e : WinEvent) : Bool :=
  s.pc.isSome &&
    match e with
    | WinEvent.keyboardInput key pressed _ => !pressed && key == Key.g
    | WinEvent.redrawRequested dt _ =>
      match s.nextCamera with
      | some ((timeLeft, _), _) => decide (timeLeft < dt)
      | none => false
    | _ => false

/-- The transition invariant: whenever a transition is stored, its total
duration is positive and `time_left` does not exceed it. -/
def Inv (s : WindowContext) : Prop :=
  match s.nextCamera with
  | some ((timeLeft, duration), _) => 0 < duration ∧ timeLeft ≤ duration
  | none => True

/-! Concrete sample data used by witnesses and counterexamples. -/

/-- A sample camera. -/
def camA : PerspectiveCamera :=
  { posX := 1, posY := 2, posZ := 3, rotW := 1, rotX := 0, rotY := 0, rotZ := 0
    projection := { fovx := 45, fovy := 30, znear := 1, zfar := 100 } }

/-- A second sample camera, distinct from `camA` in every pose field. -/
def camB : PerspectiveCamera :=
  { posX := 7, posY := 8, posZ := 9, rotW := 0, rotX := 1, rotY := 0, rotZ := 0
    projection := { fovx := 60, fovy := 40, znear := 2, zfar := 200 } }

/-- A navigation controller behaviour that leaves everything unchanged
(used only to instantiate witnesses; theorems hold for every behaviour). -/
def cb0 : Collab where
  controllerUpdate := fun c cam _ => (c, cam)
  processKeyboard := fun c _ _ => c
  processScroll := fun c _ => c
  processMouse := fun c _ _ => c

/-- An initial controller state. -/
def ctrl0 : CameraController :=
  { code := 0, leftMousePressed := false, rightMousePressed := false }

/-- A sample point cloud with no reorder invocations recorded yet. -/
def pc0 : PointCloud := { sortCount := 0, lastSortCamera := none }

/-- A sample idle session: 800 by 600 surface, point cloud attached, no
transition, no scene. -/
def sIdle : WindowContext :=
  { config := { width := 800, height := 600 }
    scaleFactor := 1
    pc := some pc0
    camera := camA
    nextCamera := none
    controller := ctrl0
    scene := none }

/-- A sample session mid-transition: a fresh 200 ms transition from
`camA` to `camB`. -/
def sAnim : WindowContext :=
  { sIdle with nextCamera := some ((ms200, ms200), (camA, camB)) }

/-- Fifty milliseconds in nanoseconds. -/
def dt50 : ℕ := 50000000

/-! Helper lemmas shared by the claim theorems. -/

theorem pc_resize (s : WindowContext) (w h : ℕ) (sf : Option ℚ) :
    (s.resize w h sf).pc = s.pc := by
  unfold WindowContext.resize
  cases sf with
  | none => dsimp only; split <;> rfl
  | some f => dsimp only; split <;> split <;> rfl

theorem nextCamera_resize (s : WindowContext) (w h : ℕ) (sf : Option ℚ) :
    (s.resize w h sf).nextCamera = s.nextCamera := by
  unfold WindowContext.resize
  cases sf with
  | none => dsimp only; split <;> rfl
  | some f => dsimp only; split <;> split <;> rfl

theorem update_of_le (cb : Collab) (s : WindowContext) (L D : ℕ)
    (a b : PerspectiveCamera) (dt : ℕ)
    (h : s.nextCamera = some ((L, D), (a, b))) (hdt : dt ≤ L) :
    WindowContext.update cb s dt =
      { s with
          nextCamera := some ((L - dt, D), (a, b))
          camera := a.lerp b (smoothstep (1 - asSecs (L - dt) / asSecs D)) } := by
  unfold WindowContext.update
  rw [h]
  simp [checkedSub, hdt]

theorem update_of_gt (cb : Collab) (s : WindowContext) (L D : ℕ)
    (a b : PerspectiveCamera) (dt : ℕ)
    (h : s.nextCamera = some ((L, D), (a, b))) (hdt : L < dt) :
    WindowContext.update cb s dt =
      { s with
          camera := withResizedProjection b s.config.width s.config.height
          pc := s.pc.map (fun p =>
            p.sort (withResizedProjection b s.config.width s.config.height))
          nextCamera := none } := by
  unfold WindowContext.update
  rw [h]
  simp [checkedSub, Nat.not_le.mpr hdt]

theorem update_of_idle (cb : Collab) (s : WindowContext) (dt : ℕ)
    (h : s.nextCamera = none) :
    WindowContext.update cb s dt =
      { s with
          controller := (cb.controllerUpdate s.controller s.camera dt).1
          camera := (cb.controllerUpdate s.controller s.camera dt).2 } := by
  unfold WindowContext.update
  rw [h]

theorem smoothstep_bounds (x : ℚ) (h0 : 0 ≤ x) (h1 : x ≤ 1) :
    0 ≤ smoothstep x ∧ smoothstep x ≤ 1 := by
  unfold smoothstep
  constructor
  · nlinarith [sq_nonneg x, sq_nonneg (1 - x)]
  · nlinarith [sq_nonneg x, sq_nonneg (1 - x)]

/-! Claim C1. -/

/-- C1 counterexample: starting the claim's own scenario — a 200 ms
transition from `camA` to `camB` — and feeding four updates of 50 ms
leaves the session still Animating with `time_left = 0` (the transition is
not removed on the update that drove `time_left` to zero, because removal
requires `dt` to strictly exceed `time_left`), and the dataset reorder has
not fired, contradicting the claim's "state Idle, invalidator fired once
on the 4th update". -/
theorem c1_counterexample :
    (((fun s => WindowContext.update cb0 s dt50)^[4]) sAnim).nextCamera =
      some ((0, ms200), (camA, camB)) ∧
    sortCountOf (((fun s => WindowContext.update cb0 s dt50)^[4]) sAnim) = 0 := by
  constructor
  · decide
  · decide

/-- C1 (amended): for every `dt` and active transition with
`time_left = L`, `update dt` leaves `time_left' = L - dt` (saturating) with
the transition still stored whenever `dt ≤ L` — including `dt = L`, where
`time_left' = 0` but the transition survives to the next frame — and no
reorder fires; the transition is removed exactly when `dt > L`, and on
that update the active camera is set to the stored target (bit-for-bit,
then its projection resized to the surface dimensions) and the dataset
reorder fires. -/
theorem c1_update_time_left (cb : Collab) (s : WindowContext) (L D : ℕ)
    (a b : PerspectiveCamera) (dt : ℕ)
    (h : s.nextCamera = some ((L, D), (a, b))) :
    (dt ≤ L →
      (WindowContext.update cb s dt).nextCamera = some ((L - dt, D), (a, b)) ∧
      sortCountOf (WindowContext.update cb s dt) = sortCountOf s) ∧
    (L < dt →
      (WindowContext.update cb s dt).nextCamera = none ∧
      (WindowContext.update cb s dt).camera =
        withResizedProjection b s.config.width s.config.height ∧
      sortCountOf (WindowContext.update cb s dt) =
        sortCountOf s + (if s.pc.isSome then 1 else 0)) := by
  constructor
  · intro hdt
    rw [update_of_le cb s L D a b dt h hdt]
    exact ⟨rfl, rfl⟩
  · intro hdt
    rw [update_of_gt cb s L D a b dt h hdt]
    refine ⟨rfl, rfl, ?_⟩
    cases hpc : s.pc with
    | none => simp [sortCountOf, hpc]
    | some p => simp [sortCountOf, hpc, PointCloud.sort]

/-- C1 witness: the amended theorem evaluated on the sample transition,
at `dt = 50 ms ≤ 200 ms` and at `dt = 250 ms > 200 ms`. -/
theorem c1_witness :
    ((WindowContext.update cb0 sAnim dt50).nextCamera =
        some ((ms200 - dt50, ms200), (camA, camB)) ∧
      sortCountOf (WindowContext.update cb0 sAnim dt50) = sortCountOf sAnim) ∧
    ((WindowContext.update cb0 sAnim 250000000).nextCamera = none ∧
      (WindowContext.update cb0 sAnim 250000000).camera =
        withResizedProjection camB sAnim.config.width sAnim.config.height ∧
      sortCountOf (WindowContext.update cb0 sAnim 250000000) =
        sortCountOf sAnim + (if sAnim.pc.isSome then 1 else 0)) :=
  ⟨(c1_update_time_left cb0 sAnim ms200 ms200 camA camB dt50 rfl).1 (by decide),
   (c1_update_time_left cb0 sAnim ms200 ms200 camA camB 250000000 rfl).2 (by decide)⟩

/-! Claim C3. -/

/-- C3: a camera-change request with zero animation duration never
creates a transition (from Idle the session stays Idle), the active
camera is replaced wholesale with its projection resized to the current
viewport dimensions, and the dataset reorder fires synchronously exactly
once against the newly applied camera. -/
theorem c3_zero_duration (s : WindowContext) (c : PerspectiveCamera)
    (hidle : s.nextCamera = none) :
    (s.set_camera c 0).nextCamera = none ∧
    (s.set_camera c 0).camera =
      withResizedProjection c s.config.width s.config.height ∧
    sortCountOf (s.set_camera c 0) =
      sortCountOf s + (if s.pc.isSome then 1 else 0) ∧
    (∀ p, s.pc = some p →
      (s.set_camera c 0).pc = some (p.sort ((s.set_camera c 0).camera))) := by
  unfold WindowContext.set_camera WindowContext.update_camera
  refine ⟨by simp [hidle], rfl, ?_, ?_⟩
  · cases hpc : s.pc with
    | none => simp [sortCountOf, hpc]
    | some p => simp [sortCountOf, hpc, PointCloud.sort]
  · intro p hp
    simp [hp]

/-- C3 witness: a zero-duration request on the sample idle session. -/
theorem c3_witness :
    (sIdle.set_camera camB 0).nextCamera = none ∧
    (sIdle.set_camera camB 0).camera =
      withResizedProjection camB sIdle.config.width sIdle.config.height ∧
    sortCountOf (sIdle.set_camera camB 0) =
      sortCountOf sIdle + (if sIdle.pc.isSome then 1 else 0) ∧
    (∀ p, sIdle.pc = some p →
      (sIdle.set_camera camB 0).pc = some (p.sort ((sIdle.set_camera camB 0).camera))) :=
  c3_zero_duration sIdle camB rfl

/-! Claim C4. -/

/-- C4: on an `update dt` while Animating with remaining time still
positive after subtracting (`dt < time_left`), the stored `time_left`
drops by `dt`, the active camera becomes
`interpolate(start, target, smoothstep(1 - time_left'/total_duration))`
with the cubic smoothstep, and no dataset reorder fires on that frame. -/
theorem c4_mid_animation (cb : Collab) (s : WindowContext) (L D : ℕ)
    (a b : PerspectiveCamera) (dt : ℕ)
    (h : s.nextCamera = some ((L, D), (a, b))) (hdt : dt < L) :
    (WindowContext.update cb s dt).nextCamera = some ((L - dt, D), (a, b)) ∧
    0 < L - dt ∧
    (WindowContext.update cb s dt).camera =
      a.lerp b (smoothstep (1 - asSecs (L - dt) / asSecs D)) ∧
    sortCountOf (WindowContext.update cb s dt) = sortCountOf s := by
  rw [update_of_le cb s L D a b dt h (le_of_lt hdt)]
  exact ⟨rfl, Nat.sub_pos_of_lt hdt, rfl, rfl⟩

/-- C4 witness: the first 50 ms step of the sample 200 ms transition. -/
theorem c4_witness :
    (WindowContext.update cb0 sAnim dt50).nextCamera =
      some ((ms200 - dt50, ms200), (camA, camB)) ∧
    0 < ms200 - dt50 ∧
    (WindowContext.update cb0 sAnim dt50).camera =
      camA.lerp camB (smoothstep (1 - asSecs (ms200 - dt50) / asSecs ms200)) ∧
    sortCountOf (WindowContext.update cb0 sAnim dt50) = sortCountOf sAnim :=
  c4_mid_animation cb0 sAnim ms200 ms200 camA camB dt50 rfl (by decide)

/-! Claim C5: invariant machinery. -/

theorem Inv_of_nextCamera_eq (s s' : WindowContext)
    (h : s'.nextCamera = s.nextCamera) (hs : Inv s) : Inv s' := by
  unfold Inv at *
  rw [h]
  exact hs

theorem Inv_update (cb : Collab) (s : WindowContext) (dt : ℕ) (hs : Inv s) :
    Inv (WindowContext.update cb s dt) := by
  cases hnc : s.nextCamera with
  | none =>
    rw [update_of_idle cb s dt hnc]
    simp [Inv, hnc]
  | some T =>
    obtain ⟨⟨L, D⟩, a, b⟩ := T
    simp only [Inv, hnc] at hs
    by_cases hdt : dt ≤ L
    · rw [update_of_le cb s L D a b dt hnc hdt]
      exact ⟨hs.1, le_trans (Nat.sub_le _ _) hs.2⟩
    · rw [update_of_gt cb s L D a b dt hnc (Nat.lt_of_not_le hdt)]
      trivial

theorem Inv_set_camera (s : WindowContext) (c : PerspectiveCamera) (d : ℕ)
    (hs : Inv s) : Inv (s.set_camera c d) := by
  by_cases hd : d = 0
  · subst hd
    unfold WindowContext.set_camera WindowContext.update_camera
    simpa [Inv] using hs
  · unfold WindowContext.set_camera
    simp only [hd, if_false]
    exact ⟨Nat.pos_of_ne_zero hd, le_refl d⟩

theorem Inv_resize (s : WindowContext) (w h : ℕ) (sf : Option ℚ)
    (hs : Inv s) : Inv (s.resize w h sf) :=
  Inv_of_nextCamera_eq s _ (nextCamera_resize s w h sf) hs

theorem Inv_set_point_cloud (s : WindowContext) (p : PointCloud)
    (hs : Inv s) : Inv (s.set_point_cloud p) :=
  Inv_of_nextCamera_eq s _ rfl hs

theorem Inv_handleKeyboard (cb : Collab) (s : WindowContext) (key : Key)
    (pressed : Bool) (rnd : ℕ) (hs : Inv s) :
    Inv (handleKeyboard cb s key pressed rnd) := by
  have base : ∀ (s1 : WindowContext) (c : CameraController),
      Inv s1 → Inv { s1 with controller := c } := by
    intro s1 c h1
    exact Inv_of_nextCamera_eq s1 _ rfl h1
  unfold handleKeyboard
  refine base _ _ ?_
  cases pressed with
  | true => simpa using hs
  | false =>
    simp only [Bool.false_eq_true, if_false]
    by_cases hg : key = Key.g
    · rw [if_pos hg]
      exact Inv_of_nextCamera_eq s _ rfl hs
    · rw [if_neg hg]
      cases hsc : s.scene with
      | none => exact hs
      | some sc =>
        cases hidx : sceneIndexForKey key rnd sc.numCameras with
        | none => simp only [hidx]; exact hs
        | some i => simp only [hidx]; exact Inv_set_camera s (sc.camera i) ms200 hs

theorem Inv_step (cb : Collab) (s : WindowContext) (e : WinEvent)
    (hs : Inv s) : Inv (step cb s e).1 := by
  cases e with
  | resized w h => exact Inv_resize s w h none hs
  | scaleFactorChanged w h sf => exact Inv_resize s w h (some sf) hs
  | closeRequested => exact hs
  | keyboardInput key pressed rnd => exact Inv_handleKeyboard cb s key pressed rnd hs
  | mouseWheel dy => exact Inv_of_nextCamera_eq s _ rfl hs
  | mouseInput left pressed =>
    cases left with
    | true => exact Inv_of_nextCamera_eq s _ rfl hs
    | false => exact Inv_of_nextCamera_eq s _ rfl hs
  | mouseMotion dx dy => exact Inv_of_nextCamera_eq s _ rfl hs
  | redrawRequested dt res =>
    have h1 : Inv (WindowContext.update cb s dt) := Inv_update cb s dt hs
    cases res with
    | ok => exact h1
    | lost ww wh => exact Inv_resize _ ww wh none h1
    | outOfMemory => exact h1
    | timeout => exact h1
    | outdated => exact h1
  | mainEventsCleared => exact hs

/-- C5: the transition invariant — a stored transition always has a
positive total duration with `time_left ≤ total_duration` — is preserved
by every operation (transition update, camera-change request, resize,
point-cloud attachment, and every event-loop step); consequently the
elapsed-fraction denominator is never zero and the blend factor handed to
camera interpolation always lies in `[0, 1]`. -/
theorem c5_invariant (s : WindowContext) (hs : Inv s) :
    (∀ cb dt, Inv (WindowContext.update cb s dt)) ∧
    (∀ c d, Inv (s.set_camera c d)) ∧
    (∀ w h sf, Inv (s.resize w h sf)) ∧
    (∀ p, Inv (s.set_point_cloud p)) ∧
    (∀ cb e, Inv (step cb s e).1) ∧
    (∀ L D a b, s.nextCamera = some ((L, D), (a, b)) →
      asSecs D ≠ 0 ∧
      ∀ dt, dt ≤ L →
        0 ≤ smoothstep (1 - asSecs (L - dt) / asSecs D) ∧
        smoothstep (1 - asSecs (L - dt) / asSecs D) ≤ 1) := by
  refine ⟨fun cb dt => Inv_update cb s dt hs,
          fun c d => Inv_set_camera s c d hs,
          fun w h sf => Inv_resize s w h sf hs,
          fun p => Inv_set_point_cloud s p hs,
          fun cb e => Inv_step cb s e hs, ?_⟩
  intro L D a b hnc
  simp only [Inv, hnc] at hs
  have hD : (0 : ℚ) < asSecs D := by
    unfold asSecs
    have : (0 : ℚ) < (D : ℚ) := by exact_mod_cast hs.1
    positivity
  refine ⟨ne_of_gt hD, ?_⟩
  intro dt hdt
  have hnum : (0 : ℚ) ≤ asSecs (L - dt) := by
    unfold asSecs
    positivity
  have hle : asSecs (L - dt) ≤ asSecs D := by
    unfold asSecs
    have h1 : ((L - dt : ℕ) : ℚ) ≤ (D : ℚ) := by
      exact_mod_cast le_trans (Nat.sub_le L dt) hs.2
    have h2 : (0 : ℚ) ≤ 1000000000 := by norm_num
    exact div_le_div_of_nonneg_right h1 h2
  have hx0 : 0 ≤ asSecs (L - dt) / asSecs D := div_nonneg hnum (le_of_lt hD)
  have hx1 : asSecs (L - dt) / asSecs D ≤ 1 := (div_le_one hD).mpr hle
  have := smoothstep_bounds (1 - asSecs (L - dt) / asSecs D)
    (by linarith) (by linarith)
  exact this

/-- C5 witness: the invariant theorem evaluated on the sample
mid-transition session, which satisfies the invariant. -/
theorem c5_witness :
    Inv (WindowContext.update cb0 sAnim dt50) ∧
    asSecs ms200 ≠ 0 ∧
    0 ≤ smoothstep (1 - asSecs (ms200 - dt50) / asSecs ms200) ∧
    smoothstep (1 - asSecs (ms200 - dt50) / asSecs ms200) ≤ 1 := by
  have hInv : Inv sAnim := ⟨by decide, by decide⟩
  have h := c5_invariant sAnim hInv
  have hrange := h.2.2.2.2.2 ms200 ms200 camA camB rfl
  exact ⟨h.1 cb0 dt50, hrange.1, (hrange.2 dt50 (by decide)).1,
    (hrange.2 dt50 (by decide)).2⟩

/-! Claim C2: counting reorder invocations. -/

theorem sortCountOf_eq_of_pc (s s' : WindowContext) (h : s'.pc = s.pc) :
    sortCountOf s' = sortCountOf s := by
  unfold sortCountOf
  rw [h]

theorem pc_set_camera_pos (s : WindowContext) (c : PerspectiveCamera) (d : ℕ)
    (hd : d ≠ 0) : (s.set_camera c d).pc = s.pc := by
  unfold WindowContext.set_camera
  rw [if_neg hd]

theorem sortCountOf_update (cb : Collab) (s : WindowContext) (dt : ℕ) :
    sortCountOf (WindowContext.update cb s dt) =
      sortCountOf s +
        (if s.pc.isSome &&
            (match s.nextCamera with
             | some ((L, _), _) => decide (L < dt)
             | none => false) then 1 else 0) := by
  cases hnc : s.nextCamera with
  | none =>
    rw [update_of_idle cb s dt hnc]
    simp [sortCountOf, hnc]
  | some T =>
    obtain ⟨⟨L, D⟩, a, b⟩ := T
    by_cases hdt : dt ≤ L
    · rw [update_of_le cb s L D a b dt hnc hdt]
      simp [sortCountOf, hnc, Nat.not_lt.mpr hdt]
    · rw [update_of_gt cb s L D a b dt hnc (Nat.lt_of_not_le hdt)]
      cases hpc : s.pc with
      | none => simp [sortCountOf, hnc, hpc, Nat.lt_of_not_le hdt]
      | some p => simp [sortCountOf, hnc, hpc, Nat.lt_of_not_le hdt, PointCloud.sort]

theorem sortCountOf_handleKeyboard (cb : Collab) (s : WindowContext)
    (key : Key) (pressed : Bool) (rnd : ℕ) :
    sortCountOf (handleKeyboard cb s key pressed rnd) =
      sortCountOf s +
        (if s.pc.isSome && (!pressed && key == Key.g) then 1 else 0) := by
  have hctrl : ∀ (s1 : WindowContext) (c : CameraController),
      sortCountOf { s1 with controller := c } = sortCountOf s1 := fun _ _ => rfl
  unfold handleKeyboard
  rw [hctrl]
  cases pressed with
  | true => simp
  | false =>
    simp only [Bool.false_eq_true, if_false]
    by_cases hg : key = Key.g
    · rw [if_pos hg]
      cases hpc : s.pc with
      | none => simp [sortCountOf, hpc, hg]
      | some p => simp [sortCountOf, hpc, hg, PointCloud.sort]
    · rw [if_neg hg]
      have hkey : (key == Key.g) = false := by
        simpa using hg
      have hrhs :
          (if s.pc.isSome && (!false && key == Key.g) then 1 else 0) = 0 := by
        simp [hkey]
      rw [hrhs, Nat.add_zero]
      cases hsc : s.scene with
      | none => rfl
      | some sc =>
        simp only [hsc]
        cases hidx : sceneIndexForKey key rnd sc.numCameras with
        | none => rfl
        | some i =>
          exact sortCountOf_eq_of_pc s _
            (pc_set_camera_pos s (sc.camera i) ms200 (by decide))

/-- C2: the dataset reorder fires exactly at the four settle points and
nowhere else.  Over every event-loop step its invocation count rises by
one exactly when `settleFires` holds — the re-sort key `G` released, or a
redraw completing an in-flight transition (`dt > time_left`), each only
with a point cloud attached — and by zero on every other event, in
particular on controller-driven frames and mid-animation frames.  The two
remaining settle points are the direct operations: attaching a point
cloud sorts it once eagerly, and a zero-duration camera change sorts
exactly once while a non-zero-duration request never sorts. -/
theorem c2_settle_points :
    (∀ (cb : Collab) (s : WindowContext) (e : WinEvent),
      sortCountOf (step cb s e).1 =
        sortCountOf s + (if settleFires s e then 1 else 0)) ∧
    (∀ (s : WindowContext) (p : PointCloud),
      (s.set_point_cloud p).pc = some (p.sort s.camera)) ∧
    (∀ (s : WindowContext) (c : PerspectiveCamera),
      sortCountOf (s.set_camera c 0) =
        sortCountOf s + (if s.pc.isSome then 1 else 0)) ∧
    (∀ (s : WindowContext) (c : PerspectiveCamera) (d : ℕ), d ≠ 0 →
      sortCountOf (s.set_camera c d) = sortCountOf s) := by
  refine ⟨?_, ?_, ?_, ?_⟩
  · intro cb s e
    cases e with
    | resized w h =>
      rw [show (step cb s (WinEvent.resized w h)).1 = s.resize w h none from rfl]
      rw [sortCountOf_eq_of_pc s _ (pc_resize s w h none)]
      simp [settleFires]
    | scaleFactorChanged w h sf =>
      rw [show (step cb s (WinEvent.scaleFactorChanged w h sf)).1 =
        s.resize w h (some sf) from rfl]
      rw [sortCountOf_eq_of_pc s _ (pc_resize s w h (some sf))]
      simp [settleFires]
    | closeRequested => simp [step, settleFires]
    | keyboardInput key pressed rnd =>
      rw [show (step cb s (WinEvent.keyboardInput key pressed rnd)).1 =
        handleKeyboard cb s key pressed rnd from rfl]
      rw [sortCountOf_handleKeyboard]
      simp [settleFires]
    | mouseWheel dy =>
      rw [show sortCountOf (step cb s (WinEvent.mouseWheel dy)).1 =
        sortCountOf s from rfl]
      simp [settleFires]
    | mouseInput left pressed =>
      cases left with
      | true =>
        rw [show sortCountOf (step cb s (WinEvent.mouseInput true pressed)).1 =
          sortCountOf s from rfl]
        simp [settleFires]
      | false =>
        rw [show sortCountOf (step cb s (WinEvent.mouseInput false pressed)).1 =
          sortCountOf s from rfl]
        simp [settleFires]
    | mouseMotion dx dy =>
      rw [show sortCountOf (step cb s (WinEvent.mouseMotion dx dy)).1 =
        sortCountOf s from rfl]
      simp [settleFires]
    | redrawRequested dt res =>
      cases res with
      | ok =>
        rw [show (step cb s (WinEvent.redrawRequested dt RenderResult.ok)).1 =
          WindowContext.update cb s dt from rfl]
        rw [sortCountOf_update]
        simp [settleFires]
      | lost ww wh =>
        rw [show (step cb s (WinEvent.redrawRequested dt (RenderResult.lost ww wh))).1 =
          (WindowContext.update cb s dt).resize ww wh none from rfl]
        rw [sortCountOf_eq_of_pc _ _ (pc_resize _ ww wh none)]
        rw [sortCountOf_update]
        simp [settleFires]
      | outOfMemory =>
        rw [show (step cb s (WinEvent.redrawRequested dt RenderResult.outOfMemory)).1 =
          WindowContext.update cb s dt from rfl]
        rw [sortCountOf_update]
        simp [settleFires]
      | timeout =>
        rw [show (step cb s (WinEvent.redrawRequested dt RenderResult.timeout)).1 =
          WindowContext.update cb s dt from rfl]
        rw [sortCountOf_update]
        simp [settleFires]
      | outdated =>
        rw [show (step cb s (WinEvent.redrawRequested dt RenderResult.outdated)).1 =
          WindowContext.update cb s dt from rfl]
        rw [sortCountOf_update]
        simp [settleFires]
    | mainEventsCleared => simp [step, settleFires]
  · intro s p
    rfl
  · intro s c
    unfold WindowContext.set_camera WindowContext.update_camera
    cases hpc : s.pc with
    | none => simp [sortCountOf, hpc]
    | some p => simp [sortCountOf, hpc, PointCloud.sort]
  · intro s c d hd
    exact sortCountOf_eq_of_pc s _ (pc_set_camera_pos s c d hd)

/-- C2 witness: the settle-point accounting evaluated on the sample
sessions — a mid-animation redraw does not fire, a transition-completing
redraw fires once, the `G` key fires once, a controller frame does not
fire, and a non-zero-duration camera request does not fire. -/
theorem c2_witness :
    sortCountOf (step cb0 sAnim (WinEvent.redrawRequested dt50 RenderResult.ok)).1 =
      sortCountOf sAnim + (if settleFires sAnim (WinEvent.redrawRequested dt50 RenderResult.ok) then 1 else 0) ∧
    sortCountOf (step cb0 sAnim (WinEvent.redrawRequested 250000000 RenderResult.ok)).1 =
      sortCountOf sAnim + (if settleFires sAnim (WinEvent.redrawRequested 250000000 RenderResult.ok) then 1 else 0) ∧
    sortCountOf (step cb0 sIdle (WinEvent.keyboardInput Key.g false 0)).1 =
      sortCountOf sIdle + (if settleFires sIdle (WinEvent.keyboardInput Key.g false 0) then 1 else 0) ∧
    sortCountOf (step cb0 sIdle (WinEvent.redrawRequested dt50 RenderResult.ok)).1 =
      sortCountOf sIdle + (if settleFires sIdle (WinEvent.redrawRequested dt50 RenderResult.ok) then 1 else 0) ∧
    sortCountOf (sIdle.set_camera camB ms200) = sortCountOf sIdle :=
  ⟨c2_settle_points.1 cb0 sAnim (WinEvent.redrawRequested dt50 RenderResult.ok),
   c2_settle_points.1 cb0 sAnim (WinEvent.redrawRequested 250000000 RenderResult.ok),
   c2_settle_points.1 cb0 sIdle (WinEvent.keyboardInput Key.g false 0),
   c2_settle_points.1 cb0 sIdle (WinEvent.redrawRequested dt50 RenderResult.ok),
   c2_settle_points.2.2.2 sIdle camB ms200 (by decide)⟩

/-! Claim C6. -/

/-- C6 counterexample: with the surface last configured at 800 by 600 and
the window's inner size at 1024 by 768, a lost-surface render error makes
the next step reconfigure to 1024 by 768 — the window's current inner
size, not the last configured width and height — and it does alter the
active camera: its aspect-derived field of view changes from 30 to 60. -/
theorem c6_counterexample :
    (step cb0 sIdle (WinEvent.redrawRequested 0 (RenderResult.lost 1024 768))).1.config.width = 1024 ∧
    sIdle.config.width = 800 ∧
    (step cb0 sIdle (WinEvent.redrawRequested 0 (RenderResult.lost 1024 768))).1.camera.projection.fovy = 60 ∧
    sIdle.camera.projection.fovy = 30 := by
  have h1 : WindowContext.update cb0 sIdle 0 = sIdle := by
    rw [update_of_idle cb0 sIdle 0 rfl]
    rfl
  have h2 : (step cb0 sIdle (WinEvent.redrawRequested 0 (RenderResult.lost 1024 768))).1 =
      sIdle.resize 1024 768 none := by
    show (WindowContext.update cb0 sIdle 0).resize 1024 768 none =
      sIdle.resize 1024 768 none
    rw [h1]
  have h3 : sIdle.resize 1024 768 none =
      { sIdle with
          config := { width := 1024, height := 768 }
          camera := withResizedProjection sIdle.camera 1024 768 } := by
    unfold WindowContext.resize
    dsimp only
    rw [if_pos ⟨by norm_num, by norm_num⟩]
  refine ⟨by rw [h2, h3], rfl, ?_, rfl⟩
  rw [h2, h3]
  norm_num [withResizedProjection, PerspectiveProjection.resize, sIdle, camA]

/-- C6 (amended): on a lost-surface render error the loop reconfigures
the surface to the window's current inner size (as sampled at the moment
of recovery, not necessarily the last configured dimensions), resizes the
active camera's projection to those dimensions while leaving the rest of
the frame's state — transition, reorder count — untouched, and the error
is non-fatal so the frame is retried on the next tick. -/
theorem c6_lost_recovery (cb : Collab) (s : WindowContext) (dt ww wh : ℕ)
    (hw : 0 < ww) (hh : 0 < wh) :
    (step cb s (WinEvent.redrawRequested dt (RenderResult.lost ww wh))).2 = false ∧
    (step cb s (WinEvent.redrawRequested dt (RenderResult.lost ww wh))).1.config.width = ww ∧
    (step cb s (WinEvent.redrawRequested dt (RenderResult.lost ww wh))).1.config.height = wh ∧
    (step cb s (WinEvent.redrawRequested dt (RenderResult.lost ww wh))).1.camera =
      withResizedProjection (WindowContext.update cb s dt).camera ww wh ∧
    (step cb s (WinEvent.redrawRequested dt (RenderResult.lost ww wh))).1.nextCamera =
      (WindowContext.update cb s dt).nextCamera ∧
    sortCountOf (step cb s (WinEvent.redrawRequested dt (RenderResult.lost ww wh))).1 =
      sortCountOf (WindowContext.update cb s dt) := by
  have hstep : (step cb s (WinEvent.redrawRequested dt (RenderResult.lost ww wh))).1 =
      (WindowContext.update cb s dt).resize ww wh none := rfl
  have hres : (WindowContext.update cb s dt).resize ww wh none =
      { WindowContext.update cb s dt with
          config := { width := ww, height := wh }
          camera := withResizedProjection (WindowContext.update cb s dt).camera ww wh } := by
    unfold WindowContext.resize
    dsimp only
    rw [if_pos ⟨hw, hh⟩]
  refine ⟨rfl, ?_, ?_, ?_, ?_, ?_⟩
  · rw [hstep, hres]
  · rw [hstep, hres]
  · rw [hstep, hres]
  · rw [hstep, hres]
  · rw [hstep, hres]
    rfl

/-- C6 witness: the amended lost-surface recovery evaluated on the sample
idle session at inner size 1024 by 768. -/
theorem c6_witness :
    (step cb0 sIdle (WinEvent.redrawRequested 0 (RenderResult.lost 1024 768))).2 = false ∧
    (step cb0 sIdle (WinEvent.redrawRequested 0 (RenderResult.lost 1024 768))).1.config.width = 1024 ∧
    (step cb0 sIdle (WinEvent.redrawRequested 0 (RenderResult.lost 1024 768))).1.config.height = 768 ∧
    (step cb0 sIdle (WinEvent.redrawRequested 0 (RenderResult.lost 1024 768))).1.camera =
      withResizedProjection (WindowContext.update cb0 sIdle 0).camera 1024 768 ∧
    (step cb0 sIdle (WinEvent.redrawRequested 0 (RenderResult.lost 1024 768))).1.nextCamera =
      (WindowContext.update cb0 sIdle 0).nextCamera ∧
    sortCountOf (step cb0 sIdle (WinEvent.redrawRequested 0 (RenderResult.lost 1024 768))).1 =
      sortCountOf (WindowContext.update cb0 sIdle 0) :=
  c6_lost_recovery cb0 sIdle 0 1024 768 (by decide) (by decide)

/-! Claim C7. -/

/-- C7: the event loop sets exit exactly on a window-close request or an
out-of-memory render error; a presentation timeout or outdated surface is
non-fatal and changes nothing beyond the frame's ordinary `update dt`
(the error triage itself touches no state). -/
theorem c7_exit_conditions :
    (∀ (cb : Collab) (s : WindowContext) (e : WinEvent),
      (step cb s e).2 = true ↔
        (e = WinEvent.closeRequested ∨
          ∃ dt, e = WinEvent.redrawRequested dt RenderResult.outOfMemory)) ∧
    (∀ (cb : Collab) (s : WindowContext) (dt : ℕ),
      (step cb s (WinEvent.redrawRequested dt RenderResult.timeout)).1 =
        WindowContext.update cb s dt ∧
      (step cb s (WinEvent.redrawRequested dt RenderResult.outdated)).1 =
        WindowContext.update cb s dt) := by
  constructor
  · intro cb s e
    cases e with
    | resized w h => simp [step]
    | scaleFactorChanged w h sf => simp [step]
    | closeRequested => simp [step]
    | keyboardInput key pressed rnd => simp [step]
    | mouseWheel dy => simp [step]
    | mouseInput left pressed =>
      cases left with
      | true => simp [step]
      | false => simp [step]
    | mouseMotion dx dy => simp [step]
    | redrawRequested dt res =>
      cases res with
      | ok => simp [step]
      | lost ww wh => simp [step]
      | outOfMemory => simp [step]
      | timeout => simp [step]
      | outdated => simp [step]
    | mainEventsCleared => simp [step]
  · intro cb s dt
    exact ⟨rfl, rfl⟩

/-- C7 witness: exit on close request and state preservation on a
timeout, evaluated on the sample idle session. -/
theorem c7_witness :
    (step cb0 sIdle WinEvent.closeRequested).2 = true ∧
    (step cb0 sIdle (WinEvent.redrawRequested dt50 RenderResult.timeout)).1 =
      WindowContext.update cb0 sIdle dt50 :=
  ⟨(c7_exit_conditions.1 cb0 sIdle WinEvent.closeRequested).mpr (Or.inl rfl),
   (c7_exit_conditions.2 cb0 sIdle dt50).1⟩

/-! Claim C8. -/

/-- C8: a resize with a zero width or zero height leaves the surface
configuration and the active camera (hence its projection) unchanged,
while a provided positive scale factor still updates the DPI scale
field. -/
theorem c8_resize_guard (s : WindowContext) (w h : ℕ) (sf : Option ℚ)
    (hzero : w = 0 ∨ h = 0) :
    (s.resize w h sf).config = s.config ∧
    (s.resize w h sf).camera = s.camera ∧
    (∀ f, sf = some f → 0 < f → (s.resize w h sf).scaleFactor = f) := by
  have hcond : ¬(0 < w ∧ 0 < h) := by
    rintro ⟨hw, hh⟩
    rcases hzero with rfl | rfl
    · exact absurd hw (lt_irrefl 0)
    · exact absurd hh (lt_irrefl 0)
  unfold WindowContext.resize
  dsimp only
  rw [if_neg hcond]
  cases sf with
  | none =>
    refine ⟨rfl, rfl, ?_⟩
    intro f hf
    cases hf
  | some f0 =>
    dsimp only
    by_cases hf0 : 0 < f0
    · rw [if_pos hf0]
      refine ⟨rfl, rfl, ?_⟩
      intro f hf _
      cases hf
      rfl
    · rw [if_neg hf0]
      refine ⟨rfl, rfl, ?_⟩
      intro f hf hpos
      cases hf
      exact absurd hpos hf0

/-- C8 witness: a zero-width resize with scale factor 2 on the sample
idle session. -/
theorem c8_witness :
    (sIdle.resize 0 768 (some 2)).config = sIdle.config ∧
    (sIdle.resize 0 768 (some 2)).camera = sIdle.camera ∧
    (∀ f, (some 2 : Option ℚ) = some f → 0 < f →
      (sIdle.resize 0 768 (some 2)).scaleFactor = f) :=
  c8_resize_guard sIdle 0 768 (some 2) (Or.inl rfl)

/-! Claim C9. -/

/-- C9: a zero-duration camera-change request issued while a transition
is in flight does not cancel or replace the stored transition: the
`next_camera` field is unchanged, the requested camera is applied
immediately, and on the following updates the still-running transition
overwrites it — with the interpolated camera while `dt ≤ time_left` and
with the stored target on completion — so the last request does not
win. -/
theorem c9_zero_duration_in_flight (s : WindowContext)
    (c : PerspectiveCamera) (L D : ℕ) (a b : PerspectiveCamera)
    (h : s.nextCamera = some ((L, D), (a, b))) :
    (s.set_camera c 0).nextCamera = some ((L, D), (a, b)) ∧
    (s.set_camera c 0).camera =
      withResizedProjection c s.config.width s.config.height ∧
    (∀ cb dt, dt ≤ L →
      (WindowContext.update cb (s.set_camera c 0) dt).camera =
        a.lerp b (smoothstep (1 - asSecs (L - dt) / asSecs D))) ∧
    (∀ cb dt, L < dt →
      (WindowContext.update cb (s.set_camera c 0) dt).camera =
        withResizedProjection b (s.set_camera c 0).config.width
          (s.set_camera c 0).config.height) := by
  have h1 : (s.set_camera c 0).nextCamera = some ((L, D), (a, b)) := by
    unfold WindowContext.set_camera WindowContext.update_camera
    simpa using h
  refine ⟨h1, rfl, ?_, ?_⟩
  · intro cb dt hdt
    rw [update_of_le cb _ L D a b dt h1 hdt]
  · intro cb dt hdt
    rw [update_of_gt cb _ L D a b dt h1 hdt]

/-- C9 witness: a zero-duration request to `camA` issued on the sample
mid-transition session; the stored 200 ms transition to `camB`
survives and overwrites the immediately applied camera on the next
updates. -/
theorem c9_witness :
    (sAnim.set_camera camA 0).nextCamera = some ((ms200, ms200), (camA, camB)) ∧
    (sAnim.set_camera camA 0).camera =
      withResizedProjection camA sAnim.config.width sAnim.config.height ∧
    (∀ cb dt, dt ≤ ms200 →
      (WindowContext.update cb (sAnim.set_camera camA 0) dt).camera =
        camA.lerp camB (smoothstep (1 - asSecs (ms200 - dt) / asSecs ms200))) ∧
    (∀ cb dt, ms200 < dt →
      (WindowContext.update cb (sAnim.set_camera camA 0) dt).camera =
        withResizedProjection camB (sAnim.set_camera camA 0).config.width
          (sAnim.set_camera camA 0).config.height) :=
  c9_zero_duration_in_flight sAnim camA ms200 ms200 camA camB rfl

/-! Claim C10. -/

/-- C10: the numeric-key dispatch passes the key's number directly to
`Scene::camera` with no modulo or bounds check — so any scene with at
most `n` cameras receives an out-of-range index from digit key `n` —
while the random-camera path always reduces its index modulo the camera
count and therefore stays in range; concretely, the keyboard handler
stores a 200 ms transition targeting `Scene::camera(n)` for digit key
`n`. -/
theorem c10_unchecked_numeric_index :
    (∀ n rnd numCameras, sceneIndexForKey (Key.num n) rnd numCameras = some n) ∧
    (∀ n rnd numCameras, numCameras ≤ n →
      ∀ i, sceneIndexForKey (Key.num n) rnd numCameras = some i →
        ¬ i < numCameras) ∧
    (∀ rnd numCameras, 0 < numCameras →
      ∀ i, sceneIndexForKey Key.r rnd numCameras = some i → i < numCameras) ∧
    (∀ (cb : Collab) (s : WindowContext) (sc : Scene) (n rnd : ℕ),
      s.scene = some sc →
      (handleKeyboard cb s (Key.num n) false rnd).nextCamera =
        some ((ms200, ms200), (s.camera, sc.camera n))) := by
  refine ⟨fun n rnd numCameras => rfl, ?_, ?_, ?_⟩
  · intro n rnd numCameras hle i hi
    simp [sceneIndexForKey, key_to_num] at hi
    omega
  · intro rnd numCameras hpos i hi
    simp [sceneIndexForKey, key_to_num] at hi
    have hm := Nat.mod_lt rnd hpos
    omega
  · intro cb s sc n rnd hsc
    unfold handleKeyboard
    have hctrl : ∀ (s1 : WindowContext) (c : CameraController),
        WindowContext.nextCamera { s1 with controller := c } = s1.nextCamera :=
      fun _ _ => rfl
    rw [hctrl]
    simp only [Bool.false_eq_true, if_false, hsc]
    rw [if_neg (by simp : ¬ Key.num n = Key.g)]
    show (s.set_camera (sc.camera n) ms200).nextCamera = _
    unfold WindowContext.set_camera
    rw [if_neg (by decide : ¬ ms200 = 0)]

/-- C10 witness: a two-camera scene; digit key 2 requests index 2, which
is out of range, while the random path with any draw stays in range. -/
theorem c10_witness :
    sceneIndexForKey (Key.num 2) 7 2 = some 2 ∧
    (∀ i, sceneIndexForKey (Key.num 2) 7 2 = some i → ¬ i < 2) ∧
    (∀ i, sceneIndexForKey Key.r 7 2 = some i → i < 2) :=
  ⟨c10_unchecked_numeric_index.1 2 7 2,
   c10_unchecked_numeric_index.2.1 2 7 2 (by decide),
   c10_unchecked_numeric_index.2.2.1 7 2 (by decide)⟩

end WebSplat
